import Mathlib

/-!
Verification of the scheduler wakeup paths (`packages/core/src/scheduler/wait.rs`)
and of the mutation-consumer contract (`packages/core/src.old/mutations.rs`) of
the dioxus reconciliation core, as a shallow embedding in Lean.

Identities (`ElementId`, `ScopeId`, `TaskId`, `SuspenseId`) are `Nat`.
The scheduler's slab tables become finite maps `Nat → Option _`; a slab index
on a vacant slot, and `Option::unwrap` on `None`, are Rust panics, modelled by
the `Except` error branch of the two handlers.

A task's or a suspense leaf's pinned future is opaque to `wait.rs`: it is
modelled by a stream of poll outcomes (`behavior`) together with the number of
polls it has received so far (`polls`), so that polling is observable.
-/

/-- Node identity handed to the backend (ElementId). -/
abbrev ElementId := Nat

/-- Component instance identity (ScopeId). -/
abbrev ScopeId := Nat

/-- Background task identity (TaskId). -/
abbrev TaskId := Nat

/-- Suspended-leaf identity (SuspenseId). -/
abbrev SuspenseId := Nat

/-- One instruction of the stack-machine edit log, one constructor per
operation of the `Renderer` trait in `src.old/mutations.rs`.  Borrowed string
slices become `String`; `&'static [u8]` descendant paths become `List Nat`;
attribute/listener payloads are kept as their name strings, which is all the
instruction set itself fixes. -/
inductive Mutation where
  | PushRoot (root : ElementId)
  | PopRoot
  | ReplaceWith (root : ElementId) (m : Nat)
  | InsertAfter (root : ElementId) (n : Nat)
  | InsertBefore (root : ElementId) (n : Nat)
  | AppendChildren (n : Nat)
  | CreateTextNode (text : String) (root : ElementId)
  | CreateElement (tag : String) (ns : Option String) (id : ElementId)
  | CreatePlaceholder (id : ElementId)
  | Remove (root : ElementId)
  | RemoveAttribute (name : String) (root : ElementId)
  | RemoveChildren (root : ElementId)
  | NewEventListener (event : String) (scope : ScopeId)
  | RemoveEventListener (event : String) (root : ElementId)
  | SetText (text : String) (root : ElementId)
  | SetAttribute (name : String) (value : String) (ns : Option String) (root : ElementId)
  | MarkDirtyScope (scope : ScopeId)
  | Save (id : String) (num : Nat)
  | Load (id : String) (index : Nat)
  | AssignId (descendent : List Nat) (id : ElementId)
  | ReplaceDescendant (descendent : List Nat) (m : Nat)
deriving DecidableEq

/-- The `ElementId`s a mutation instruction refers to (targets and bound ids). -/
def mutationRefs : Mutation → List ElementId
  | .PushRoot root => [root]
  | .PopRoot => []
  | .ReplaceWith root _ => [root]
  | .InsertAfter root _ => [root]
  | .InsertBefore root _ => [root]
  | .AppendChildren _ => []
  | .CreateTextNode _ root => [root]
  | .CreateElement _ _ id => [id]
  | .CreatePlaceholder id => [id]
  | .Remove root => [root]
  | .RemoveAttribute _ root => [root]
  | .RemoveChildren root => [root]
  | .NewEventListener _ _ => []
  | .RemoveEventListener _ root => [root]
  | .SetText _ root => [root]
  | .SetAttribute _ _ _ root => [root]
  | .MarkDirtyScope _ => []
  | .Save _ _ => []
  | .Load _ _ => []
  | .AssignId _ id => [id]
  | .ReplaceDescendant _ _ => []

mutual
/-- Template tree node (the `VNode` shape the claims need): an element with a
tag, attributes and children, a text node, or an invisible placeholder. -/
inductive Template where
  | Element (tag : String) (attrs : List (String × String)) (children : TemplateList)
  | Text (s : String)
  | Placeholder

/-- Children list of a `Template.Element` (a mutual inductive so that the
creation pass is structurally recursive). -/
inductive TemplateList where
  | nil
  | cons (t : Template) (ts : TemplateList)
end

/-- Number of children in a `TemplateList`. -/
def TemplateList.length : TemplateList → Nat
  | .nil => 0
  | .cons _ ts => 1 + ts.length

mutual
/-- Modelled from the spec: `VirtualDom::create` (the creation pass of
`diff/create.rs`) is not among the provided sources; per the spec's
first-mount semantics it "treats every new node as created" — it allocates a
fresh `ElementId` for each node, emits the corresponding create instruction,
recurses into children left to right and appends them to their parent.  Takes
the next free `ElementId` and returns the emitted mutations together with the
next free `ElementId` afterwards. -/
def createTemplate : Nat → Template → List Mutation × Nat
  | nid, .Text s => ([.CreateTextNode s nid], nid + 1)
  | nid, .Placeholder => ([.CreatePlaceholder nid], nid + 1)
  | nid, .Element tag attrs children =>
      let rest := createChildren (nid + 1) children
      (Mutation.CreateElement tag none nid ::
         (attrs.map (fun a => Mutation.SetAttribute a.1 a.2 none nid) ++
          rest.1 ++ [Mutation.AppendChildren children.length]),
       rest.2)

/-- Creation pass over a children list, threading the next free `ElementId`. -/
def createChildren : Nat → TemplateList → List Mutation × Nat
  | nid, .nil => ([], nid)
  | nid, .cons t ts =>
      let first := createTemplate nid t
      let rest := createChildren first.2 ts
      (first.1 ++ rest.1, rest.2)
end

/-- Stored render output of a scope (`RenderReturn`, factory.rs).  Only
the `Sync` variant is ever constructed in `wait.rs` (`RenderReturn::Sync(new_nodes)`
with `new_nodes : Option<VNode>`); `Async` exists in the enum but does not
arise on this path. -/
inductive RenderReturn where
  | Sync (nodes : Option Template)
  | Async

/-- A scheduler-managed background task: its owning scope and its opaque
pinned future, modelled as the stream of outcomes of successive polls
(`true` = the poll completes, `task.progress()` returns true). -/
structure TaskState where
  scope : ScopeId
  behavior : Nat → Bool
  polls : Nat

/-- Suspense leaf record (`SuspenseLeaf`): owning scope, the reserved placeholder `ElementId`
(the spec associates one with every registered `SuspenseId`), and the opaque
pinned future, modelled as the stream of outcomes of successive polls
(`none` = `Poll::Pending`, `some v` = `Poll::Ready(v)` where `v : Option Template`
is the `new_nodes` render output). -/
structure SuspenseLeaf where
  scope_id : ScopeId
  placeholder : ElementId
  behavior : Nat → Option (Option Template)
  polls : Nat

/-- Per-scope state visible to `wait.rs`: the scope's spawned-task set, the
current render frame's node slot (`arena.node`), and the result of
`consume_context::<SuspenseContext>()` — `some b` names the boundary context
the lookup finds, `none` means the lookup fails. -/
structure ScopeState where
  spawned_tasks : List TaskId
  node : Option RenderReturn
  boundary : Option Nat

/-- The `VirtualDom` state the two wakeup handlers read and write: the
scheduler's task and leaf tables (slabs, i.e. partial maps), the scopes, the
per-boundary accumulated mutation buffers (`fiber.mutations` of each
`SuspenseContext`), and the identity arena's next free `ElementId`. -/
structure VirtualDom where
  tasks : Nat → Option TaskState
  leaves : Nat → Option SuspenseLeaf
  scopes : Nat → ScopeState
  boundaries : Nat → List Mutation
  nextElementId : Nat

/-- The Rust panics reachable from the two handlers. -/
inductive Panic where
  /-- Slab index panic: `self.scheduler.tasks.borrow_mut()[id.0]` on a vacant slot. -/
  | vacantIndex
  /-- Unwrap panic: `self.scheduler.leaves.borrow_mut().get(id.0).unwrap()` on `None`. -/
  | unwrapNone
  /-- Unwrap panic: `consume_context::<SuspenseContext>().unwrap()` on `None`. -/
  | missingSuspenseContext
deriving DecidableEq

/-- Shallow embedding of `VirtualDom::handle_task_wakeup` (wait.rs lines 17 to 29).  Indexes the task
slab at `id` (panics on a vacant slot), polls that task once via
`task.progress()`; when the poll completes the task is removed from its
owning scope's `spawned_tasks` and from the scheduler's task slab, otherwise
nothing else changes. -/
def handle_task_wakeup (dom : VirtualDom) (id : TaskId) : Except Panic VirtualDom :=
  match dom.tasks id with
  | none => .error .vacantIndex
  | some task =>
      if task.behavior task.polls then
        .ok { dom with
          tasks := fun j => if j = id then none else dom.tasks j,
          scopes := fun s =>
            if s = task.scope then
              { dom.scopes s with
                  spawned_tasks := (dom.scopes s).spawned_tasks.filter (fun t => t ≠ id) }
            else dom.scopes s }
      else
        .ok { dom with
          tasks := fun j =>
            if j = id then some { task with polls := task.polls + 1 } else dom.tasks j }

/-- Shallow embedding of `VirtualDom::handle_suspense_wakeup` (wait.rs lines 31 to 91).  Looks the
leaf up in the leaves slab (`.get(id.0).unwrap()` panics on `None`), polls its
pinned future once; on `Pending` it only returns (the leaf stays registered);
on `Ready(new_nodes)` it looks up the owning scope's `SuspenseContext`
(`.unwrap()` panics when absent), stores `RenderReturn::Sync(new_nodes)` as
the scope's current-frame node, and, when that value is `Sync(Some(template))`,
runs the creation pass for `template` and appends the resulting mutations to
the boundary's buffer.  The leaf is never removed from the slab. -/
def handle_suspense_wakeup (dom : VirtualDom) (id : SuspenseId) : Except Panic VirtualDom :=
  match dom.leaves id with
  | none => .error .unwrapNone
  | some leaf =>
      let leaves' := fun j =>
        if j = id then some { leaf with polls := leaf.polls + 1 } else dom.leaves j
      match leaf.behavior leaf.polls with
      | none => .ok { dom with leaves := leaves' }
      | some new_nodes =>
          match (dom.scopes leaf.scope_id).boundary with
          | none => .error .missingSuspenseContext
          | some b =>
              let scopes' := fun s =>
                if s = leaf.scope_id then
                  { dom.scopes s with node := some (RenderReturn.Sync new_nodes) }
                else dom.scopes s
              match new_nodes with
              | some template =>
                  let created := createTemplate dom.nextElementId template
                  .ok { dom with
                    leaves := leaves',
                    scopes := scopes',
                    boundaries := fun j =>
                      if j = b then dom.boundaries j ++ created.1 else dom.boundaries j,
                    nextElementId := created.2 }
              | none =>
                  .ok { dom with leaves := leaves', scopes := scopes' }

/-- Poll count of the task registered at `j`, if any. -/
def taskPolls (dom : VirtualDom) (j : TaskId) : Option Nat :=
  (dom.tasks j).map (fun t => t.polls)

/-- Poll count of the suspense leaf registered at `j`, if any. -/
def leafPolls (dom : VirtualDom) (j : SuspenseId) : Option Nat :=
  (dom.leaves j).map (fun l => l.polls)

/-- Projection: the updated state of a successful wakeup call, `none` on a
panic. -/
def okState : Except Panic VirtualDom → Option VirtualDom
  | .ok d => some d
  | .error _ => none

/-- Poll count of leaf `j` in the state a successful call produced, `none` on
a panic. -/
def okLeafPolls (r : Except Panic VirtualDom) (j : SuspenseId) : Option (Option Nat) :=
  (okState r).map (fun d => leafPolls d j)

/-- Boundary buffer `b` in the state a successful call produced, `none` on a
panic. -/
def okBoundary (r : Except Panic VirtualDom) (b : Nat) : Option (List Mutation) :=
  (okState r).map (fun d => d.boundaries b)

/-- Deliver a further suspense wake to the state a previous call produced,
propagating a panic. -/
def stepSuspense (r : Except Panic VirtualDom) (id : SuspenseId) : Except Panic VirtualDom :=
  match r with
  | .ok d => handle_suspense_wakeup d id
  | .error e => .error e

/-- Recognizer for a replace_with instruction. -/
def Mutation.isReplaceWith : Mutation → Bool
  | .ReplaceWith _ _ => true
  | _ => false

/-- Scheduler state with no registered tasks and no registered leaves. -/
def emptyDom : VirtualDom :=
  { tasks := fun _ => none, leaves := fun _ => none,
    scopes := fun _ => ⟨[], none, none⟩,
    boundaries := fun _ => [], nextElementId := 0 }

/-- A suspense leaf owned by scope 0 with reserved placeholder id 0 whose
future returns `Ready(Some(Text "hi"))` at every poll. -/
def exLeafReady : SuspenseLeaf :=
  { scope_id := 0, placeholder := 0,
    behavior := fun _ => some (some (.Text "hi")), polls := 0 }

/-- A suspense leaf whose future is `Pending` at every poll. -/
def exLeafPending : SuspenseLeaf :=
  { scope_id := 0, placeholder := 0, behavior := fun _ => none, polls := 0 }

/-- A suspense leaf whose future returns `Ready(None)` at every poll. -/
def exLeafNone : SuspenseLeaf :=
  { scope_id := 0, placeholder := 0, behavior := fun _ => some none, polls := 0 }

/-- A background task owned by scope 0 whose every poll completes. -/
def exTaskDone : TaskState := { scope := 0, behavior := fun _ => true, polls := 0 }

/-- A background task owned by scope 0 whose every poll is pending. -/
def exTaskPending : TaskState := { scope := 0, behavior := fun _ => false, polls := 0 }

/-- One-leaf dom: `exLeafReady` registered under SuspenseId 0, every scope's
suspense-context lookup yields boundary 0, the placeholder id 0 is already
allocated (`nextElementId = 1`), all boundary buffers empty. -/
def exDomReady : VirtualDom :=
  { tasks := fun _ => none,
    leaves := fun j => if j = 0 then some exLeafReady else none,
    scopes := fun _ => ⟨[], none, some 0⟩,
    boundaries := fun _ => [], nextElementId := 1 }

/-- Dom with one pending leaf registered under SuspenseId 0. -/
def exDomPending : VirtualDom :=
  { exDomReady with leaves := fun j => if j = 0 then some exLeafPending else none }

/-- Dom with one leaf registered under SuspenseId 0 that resolves to `None`. -/
def exDomNone : VirtualDom :=
  { exDomReady with leaves := fun j => if j = 0 then some exLeafNone else none }

/-- Dom whose leaf 0 is ready but whose scope has no suspense context. -/
def exDomNoBoundary : VirtualDom :=
  { exDomReady with scopes := fun _ => ⟨[], none, none⟩ }

/-- Dom with the completing task `exTaskDone` registered under TaskId 0 and
listed in scope 0's spawned-task set, plus the ready leaf under SuspenseId 0. -/
def exDomTask : VirtualDom :=
  { tasks := fun j => if j = 0 then some exTaskDone else none,
    leaves := fun j => if j = 0 then some exLeafReady else none,
    scopes := fun _ => ⟨[0], none, some 0⟩,
    boundaries := fun _ => [], nextElementId := 1 }

/-- Dom with the never-completing task `exTaskPending` registered under
TaskId 0 and listed in scope 0's spawned-task set. -/
def exDomTaskPending : VirtualDom :=
  { exDomTask with tasks := fun j => if j = 0 then some exTaskPending else none }

/-- Argument types occurring in the `Renderer<'a>` trait's method signatures
(the `&mut self` receiver is implicit in every method and omitted). -/
inductive RustTy where
  | u32
  | str
  | staticStr
  | optionStaticStr
  | optionStr
  | elementId
  | scopeId
  | attributeRef
  | attributeValue
  | listenerRef
  | staticBytes
deriving DecidableEq

/-- One method of a trait: its name, its argument types in declaration order,
and whether the trait supplies a default body (which would make implementing
it optional for a backend). -/
structure TraitMethod where
  name : String
  args : List RustTy
  hasDefault : Bool
deriving DecidableEq

/-- The `Renderer<'a>` trait of `src.old/mutations.rs`, transcribed method by
method in source order.  No method in the source carries a default body, so
every one is required of an implementor. -/
def rendererMethods : List TraitMethod := [
  ⟨"push_root", [.elementId], false⟩,
  ⟨"pop_root", [], false⟩,
  ⟨"replace_with", [.elementId, .u32], false⟩,
  ⟨"insert_after", [.elementId, .u32], false⟩,
  ⟨"insert_before", [.elementId, .u32], false⟩,
  ⟨"append_children", [.u32], false⟩,
  ⟨"create_text_node", [.str, .elementId], false⟩,
  ⟨"create_element", [.staticStr, .optionStaticStr, .elementId], false⟩,
  ⟨"create_placeholder", [.elementId], false⟩,
  ⟨"remove", [.elementId], false⟩,
  ⟨"remove_attribute", [.attributeRef, .elementId], false⟩,
  ⟨"remove_children", [.elementId], false⟩,
  ⟨"new_event_listener", [.listenerRef, .scopeId], false⟩,
  ⟨"remove_event_listener", [.staticStr, .elementId], false⟩,
  ⟨"set_text", [.str, .elementId], false⟩,
  ⟨"set_attribute", [.staticStr, .attributeValue, .optionStr, .elementId], false⟩,
  ⟨"mark_dirty_scope", [.scopeId], false⟩,
  ⟨"save", [.staticStr, .u32], false⟩,
  ⟨"load", [.staticStr, .u32], false⟩,
  ⟨"assign_id", [.staticBytes, .elementId], false⟩,
  ⟨"replace_descendant", [.staticBytes, .u32], false⟩]

/-- C8: when a leaf's poll returns Ready but the owning scope has no
SuspenseContext, the wakeup aborts with the unwrap panic on the context
lookup — the failure is fatal for that operation, not recovered from. -/
theorem c8_missing_boundary_fatal (dom : VirtualDom) (sid : SuspenseId)
    (leaf : SuspenseLeaf) (v : Option Template)
    (hl : dom.leaves sid = some leaf)
    (hr : leaf.behavior leaf.polls = some v)
    (hb : (dom.scopes leaf.scope_id).boundary = none) :
    handle_suspense_wakeup dom sid = .error .missingSuspenseContext := by
  simp only [handle_suspense_wakeup, hl, hr, hb]

/-- Witness for C8 at a concrete dom: leaf 0 is registered and ready, the
scope's context lookup fails, and the call returns the fatal error. -/
theorem c8_witness :
    exDomNoBoundary.leaves 0 = some exLeafReady ∧
    handle_suspense_wakeup exDomNoBoundary 0 = .error .missingSuspenseContext :=
  ⟨rfl, c8_missing_boundary_fatal exDomNoBoundary 0 exLeafReady (some (.Text "hi"))
    rfl rfl rfl⟩

/-- C2 counterexample: with no id 5 registered anywhere, neither handler
returns normally — both wakeups hit a lookup panic (`Except.error`), refuting
"return normally without polling anything, without error or panic". -/
theorem c2_counterexample :
    emptyDom.tasks 5 = none ∧ emptyDom.leaves 5 = none ∧
    handle_task_wakeup emptyDom 5 = .error .vacantIndex ∧
    handle_suspense_wakeup emptyDom 5 = .error .unwrapNone :=
  ⟨rfl, rfl, rfl, rfl⟩

/-- C2 amended: a wake notification for a TaskId absent from the task slab
panics on the slab index, and one for a SuspenseId absent from the leaves
slab panics on `.get(..).unwrap()`; neither is silently ignored, and no
scheduler or scope state is modified (the call aborts before any write). -/
theorem c2_amended_stale_wake_panics (dom : VirtualDom) (t : TaskId) (s : SuspenseId)
    (ht : dom.tasks t = none) (hs : dom.leaves s = none) :
    handle_task_wakeup dom t = .error .vacantIndex ∧
    handle_suspense_wakeup dom s = .error .unwrapNone := by
  constructor
  · simp only [handle_task_wakeup, ht]
  · simp only [handle_suspense_wakeup, hs]

/-- Witness for the amended C2 at the empty dom and id 0. -/
theorem c2_witness :
    handle_task_wakeup emptyDom 0 = .error .vacantIndex ∧
    handle_suspense_wakeup emptyDom 0 = .error .unwrapNone :=
  c2_amended_stale_wake_panics emptyDom 0 0 rfl rfl

/-- C7: a Pending poll of a registered leaf is not an error: the call returns
normally, the leaf stays registered in the leaves slab under the same
SuspenseId (only its internal future state has advanced by the one poll), no
other leaf changes, and no boundary buffer, scope or task is touched. -/
theorem c7_pending_left_registered (dom : VirtualDom) (sid : SuspenseId)
    (leaf : SuspenseLeaf)
    (hl : dom.leaves sid = some leaf)
    (hp : leaf.behavior leaf.polls = none) :
    ∃ d, handle_suspense_wakeup dom sid = .ok d ∧
      d.leaves sid = some { leaf with polls := leaf.polls + 1 } ∧
      (∀ j, j ≠ sid → d.leaves j = dom.leaves j) ∧
      d.boundaries = dom.boundaries ∧
      d.scopes = dom.scopes ∧
      d.tasks = dom.tasks ∧
      d.nextElementId = dom.nextElementId := by
  have h : handle_suspense_wakeup dom sid =
      .ok { dom with leaves := fun j =>
              if j = sid then some { leaf with polls := leaf.polls + 1 }
              else dom.leaves j } := by
    simp only [handle_suspense_wakeup, hl, hp]
  exact ⟨_, h, by simp, fun j hj => by simp [hj], rfl, rfl, rfl, rfl⟩

/-- Witness for C7: the concrete pending leaf stays registered and nothing
else changes. -/
theorem c7_witness :
    exDomPending.leaves 0 = some exLeafPending ∧
    ∃ d, handle_suspense_wakeup exDomPending 0 = .ok d ∧
      d.leaves 0 = some { exLeafPending with polls := 1 } ∧
      (∀ j, j ≠ 0 → d.leaves j = exDomPending.leaves j) ∧
      d.boundaries = exDomPending.boundaries ∧
      d.scopes = exDomPending.scopes ∧
      d.tasks = exDomPending.tasks ∧
      d.nextElementId = exDomPending.nextElementId :=
  ⟨rfl, c7_pending_left_registered exDomPending 0 exLeafPending rfl rfl⟩

/-- C10: when a registered leaf's poll returns `Ready(nodes)` with `nodes`
not of the shape `Some(template)` (here: `Ready(None)`, so the stored value
is not `RenderReturn::Sync(Some(..))`), the handler still installs
`Sync(None)` as the scope's current-frame node but appends no mutation to any
boundary buffer. -/
theorem c10_non_sync_some_no_mutations (dom : VirtualDom) (sid : SuspenseId)
    (leaf : SuspenseLeaf) (b : Nat)
    (hl : dom.leaves sid = some leaf)
    (hr : leaf.behavior leaf.polls = some none)
    (hb : (dom.scopes leaf.scope_id).boundary = some b) :
    ∃ d, handle_suspense_wakeup dom sid = .ok d ∧
      (d.scopes leaf.scope_id).node = some (RenderReturn.Sync none) ∧
      d.boundaries = dom.boundaries ∧
      d.nextElementId = dom.nextElementId := by
  have h : handle_suspense_wakeup dom sid =
      .ok { dom with
              leaves := fun j =>
                if j = sid then some { leaf with polls := leaf.polls + 1 }
                else dom.leaves j,
              scopes := fun s =>
                if s = leaf.scope_id then
                  { dom.scopes s with node := some (RenderReturn.Sync none) }
                else dom.scopes s } := by
    simp only [handle_suspense_wakeup, hl, hr, hb]
  exact ⟨_, h, by simp, rfl, rfl⟩

/-- Witness for C10 at the concrete dom whose leaf resolves to `None`. -/
theorem c10_witness :
    exDomNone.leaves 0 = some exLeafNone ∧
    ∃ d, handle_suspense_wakeup exDomNone 0 = .ok d ∧
      (d.scopes 0).node = some (RenderReturn.Sync none) ∧
      d.boundaries = exDomNone.boundaries ∧
      d.nextElementId = exDomNone.nextElementId :=
  ⟨rfl, c10_non_sync_some_no_mutations exDomNone 0 exLeafNone 0 rfl rfl rfl⟩

/-- C4: waking a registered TaskId polls it once; when the poll completes the
task is removed from its owning scope's spawned-task set and from the
scheduler's task slab in the same call (nothing else changes); when the poll
is Pending the task stays registered in the slab, every scope — including its
owner's spawned-task set — is untouched, and no leaf, boundary buffer or
arena state changes. -/
theorem c4_task_state_machine (dom : VirtualDom) (id : TaskId) (t : TaskState)
    (ht : dom.tasks id = some t) :
    (t.behavior t.polls = true →
      ∃ d, handle_task_wakeup dom id = .ok d ∧
        d.tasks id = none ∧
        id ∉ (d.scopes t.scope).spawned_tasks ∧
        (∀ j, j ≠ id → d.tasks j = dom.tasks j) ∧
        (∀ s, s ≠ t.scope → d.scopes s = dom.scopes s) ∧
        d.leaves = dom.leaves ∧
        d.boundaries = dom.boundaries ∧
        d.nextElementId = dom.nextElementId) ∧
    (t.behavior t.polls = false →
      ∃ d, handle_task_wakeup dom id = .ok d ∧
        d.tasks id = some { t with polls := t.polls + 1 } ∧
        (∀ j, j ≠ id → d.tasks j = dom.tasks j) ∧
        d.scopes = dom.scopes ∧
        d.leaves = dom.leaves ∧
        d.boundaries = dom.boundaries ∧
        d.nextElementId = dom.nextElementId) := by
  constructor
  · intro hdone
    have h : handle_task_wakeup dom id =
        .ok { dom with
                tasks := fun j => if j = id then none else dom.tasks j,
                scopes := fun s =>
                  if s = t.scope then
                    { dom.scopes s with
                        spawned_tasks :=
                          (dom.scopes s).spawned_tasks.filter (fun x => x ≠ id) }
                  else dom.scopes s } := by
      simp [handle_task_wakeup, ht, hdone]
    refine ⟨_, h, by simp, ?_, fun j hj => by simp [hj], fun s hs => by simp [hs],
      rfl, rfl, rfl⟩
    simp [List.mem_filter]
  · intro hpend
    have h : handle_task_wakeup dom id =
        .ok { dom with
                tasks := fun j =>
                  if j = id then some { t with polls := t.polls + 1 }
                  else dom.tasks j } := by
      simp [handle_task_wakeup, ht, hpend]
    exact ⟨_, h, by simp, fun j hj => by simp [hj], rfl, rfl, rfl, rfl⟩

/-- Witness for C4, completing branch: TaskId 0, listed in scope 0's spawned
set, completes on its poll and is removed from both tables. -/
theorem c4_witness :
    exDomTask.tasks 0 = some exTaskDone ∧ exTaskDone.behavior exTaskDone.polls = true ∧
    0 ∈ (exDomTask.scopes 0).spawned_tasks ∧
    (∃ d, handle_task_wakeup exDomTask 0 = .ok d ∧
      d.tasks 0 = none ∧
      0 ∉ (d.scopes exTaskDone.scope).spawned_tasks ∧
      (∀ j, j ≠ 0 → d.tasks j = exDomTask.tasks j) ∧
      (∀ s, s ≠ exTaskDone.scope → d.scopes s = exDomTask.scopes s) ∧
      d.leaves = exDomTask.leaves ∧
      d.boundaries = exDomTask.boundaries ∧
      d.nextElementId = exDomTask.nextElementId) :=
  ⟨rfl, rfl, by simp [exDomTask],
    (c4_task_state_machine exDomTask 0 exTaskDone rfl).1 rfl⟩

/-- C3: a wake delivery polls only the unit it names.  With a task registered
under `tid` and a leaf under `sid`: `handle_task_wakeup dom tid` returns
normally, leaves the poll count of every other task and of every leaf
unchanged, and the task at `tid` was polled exactly once (it is gone when
that poll completed); `handle_suspense_wakeup dom sid` either aborts on the
missing-context panic or returns normally with every other leaf's and every
task's poll count unchanged and the leaf at `sid` polled exactly once. -/
theorem c3_precise_wakeup (dom : VirtualDom) (tid : TaskId) (sid : SuspenseId)
    (t : TaskState) (l : SuspenseLeaf)
    (ht : dom.tasks tid = some t) (hl : dom.leaves sid = some l) :
    (∃ d, handle_task_wakeup dom tid = .ok d ∧
      (∀ j, j ≠ tid → taskPolls d j = taskPolls dom j) ∧
      (∀ j, leafPolls d j = leafPolls dom j) ∧
      (d.tasks tid = none ∨ taskPolls d tid = some (t.polls + 1))) ∧
    (handle_suspense_wakeup dom sid = .error .missingSuspenseContext ∨
     ∃ d, handle_suspense_wakeup dom sid = .ok d ∧
      (∀ j, j ≠ sid → leafPolls d j = leafPolls dom j) ∧
      (∀ j, taskPolls d j = taskPolls dom j) ∧
      leafPolls d sid = some (l.polls + 1)) := by
  constructor
  · rcases hdone : t.behavior t.polls with _ | _
    · have h : handle_task_wakeup dom tid =
          .ok { dom with
                  tasks := fun j =>
                    if j = tid then some { t with polls := t.polls + 1 }
                    else dom.tasks j } := by
        simp [handle_task_wakeup, ht, hdone]
      exact ⟨_, h, fun j hj => by simp [taskPolls, hj],
        fun j => rfl, .inr (by simp [taskPolls])⟩
    · have h : handle_task_wakeup dom tid =
          .ok { dom with
                  tasks := fun j => if j = tid then none else dom.tasks j,
                  scopes := fun s =>
                    if s = t.scope then
                      { dom.scopes s with
                          spawned_tasks :=
                            (dom.scopes s).spawned_tasks.filter (fun x => x ≠ tid) }
                    else dom.scopes s } := by
        simp [handle_task_wakeup, ht, hdone]
      exact ⟨_, h, fun j hj => by simp [taskPolls, hj],
        fun j => rfl, .inl (by simp)⟩
  · rcases hout : l.behavior l.polls with _ | v
    · have h : handle_suspense_wakeup dom sid =
          .ok { dom with
                  leaves := fun j =>
                    if j = sid then some { l with polls := l.polls + 1 }
                    else dom.leaves j } := by
        simp only [handle_suspense_wakeup, hl, hout]
      exact .inr ⟨_, h, fun j hj => by simp [leafPolls, hj],
        fun j => rfl, by simp [leafPolls]⟩
    · rcases hb : (dom.scopes l.scope_id).boundary with _ | b
      · exact .inl (by simp only [handle_suspense_wakeup, hl, hout, hb])
      · rcases v with _ | tpl
        · have h : handle_suspense_wakeup dom sid =
              .ok { dom with
                      leaves := fun j =>
                        if j = sid then some { l with polls := l.polls + 1 }
                        else dom.leaves j,
                      scopes := fun s =>
                        if s = l.scope_id then
                          { dom.scopes s with node := some (RenderReturn.Sync none) }
                        else dom.scopes s } := by
            simp only [handle_suspense_wakeup, hl, hout, hb]
          refine .inr ⟨_, h, fun j hj => by simp [leafPolls, hj], fun j => rfl,
            by simp [leafPolls]⟩
        · have h : handle_suspense_wakeup dom sid =
              .ok { dom with
                      leaves := fun j =>
                        if j = sid then some { l with polls := l.polls + 1 }
                        else dom.leaves j,
                      scopes := fun s =>
                        if s = l.scope_id then
                          { dom.scopes s with
                              node := some (RenderReturn.Sync (some tpl)) }
                        else dom.scopes s,
                      boundaries := fun j =>
                        if j = b then
                          dom.boundaries j ++ (createTemplate dom.nextElementId tpl).1
                        else dom.boundaries j,
                      nextElementId := (createTemplate dom.nextElementId tpl).2 } := by
            simp only [handle_suspense_wakeup, hl, hout, hb]
          refine .inr ⟨_, h, fun j hj => by simp [leafPolls, hj], fun j => rfl,
            by simp [leafPolls]⟩

/-- Witness for C3: dom with task 0 (completing) and leaf 0 (ready) —
delivering each wake touches only the named unit's poll state. -/
theorem c3_witness :
    exDomTask.tasks 0 = some exTaskDone ∧ exDomTask.leaves 0 = some exLeafReady ∧
    ((∃ d, handle_task_wakeup exDomTask 0 = .ok d ∧
      (∀ j, j ≠ 0 → taskPolls d j = taskPolls exDomTask j) ∧
      (∀ j, leafPolls d j = leafPolls exDomTask j) ∧
      (d.tasks 0 = none ∨ taskPolls d 0 = some (exTaskDone.polls + 1))) ∧
    (handle_suspense_wakeup exDomTask 0 = .error .missingSuspenseContext ∨
     ∃ d, handle_suspense_wakeup exDomTask 0 = .ok d ∧
      (∀ j, j ≠ 0 → leafPolls d j = leafPolls exDomTask j) ∧
      (∀ j, taskPolls d j = taskPolls exDomTask j) ∧
      leafPolls d 0 = some (exLeafReady.polls + 1))) :=
  ⟨rfl, rfl, c3_precise_wakeup exDomTask 0 0 exTaskDone exLeafReady rfl rfl⟩

/-- C5: when a registered leaf's poll returns `Ready(Some(template))` and the
owning scope's SuspenseContext lookup yields boundary `b`, the handler stores
`Sync(Some(template))` as the scope's current-frame node and appends exactly
the creation-pass mutations for the template to boundary `b`'s buffer, after
everything already buffered there; no other boundary buffer changes, and the
arena's next free id advances past the freshly created nodes. -/
theorem c5_ready_resolution (dom : VirtualDom) (sid : SuspenseId)
    (leaf : SuspenseLeaf) (tpl : Template) (b : Nat)
    (hl : dom.leaves sid = some leaf)
    (hr : leaf.behavior leaf.polls = some (some tpl))
    (hb : (dom.scopes leaf.scope_id).boundary = some b) :
    ∃ d, handle_suspense_wakeup dom sid = .ok d ∧
      (d.scopes leaf.scope_id).node = some (RenderReturn.Sync (some tpl)) ∧
      d.boundaries b = dom.boundaries b ++ (createTemplate dom.nextElementId tpl).1 ∧
      (∀ j, j ≠ b → d.boundaries j = dom.boundaries j) ∧
      d.nextElementId = (createTemplate dom.nextElementId tpl).2 := by
  have h : handle_suspense_wakeup dom sid =
      .ok { dom with
              leaves := fun j =>
                if j = sid then some { leaf with polls := leaf.polls + 1 }
                else dom.leaves j,
              scopes := fun s =>
                if s = leaf.scope_id then
                  { dom.scopes s with node := some (RenderReturn.Sync (some tpl)) }
                else dom.scopes s,
              boundaries := fun j =>
                if j = b then
                  dom.boundaries j ++ (createTemplate dom.nextElementId tpl).1
                else dom.boundaries j,
              nextElementId := (createTemplate dom.nextElementId tpl).2 } := by
    simp only [handle_suspense_wakeup, hl, hr, hb]
  exact ⟨_, h, by simp, by simp, fun j hj => by simp [hj], rfl⟩

/-- Witness for C5: resolving the concrete ready leaf appends the creation
mutations of `Text "hi"` (one `CreateTextNode` at the fresh id 1) to boundary
0's previously empty buffer and installs the output in the scope frame. -/
theorem c5_witness :
    exDomReady.leaves 0 = some exLeafReady ∧
    (createTemplate exDomReady.nextElementId (.Text "hi")).1 =
      [Mutation.CreateTextNode "hi" 1] ∧
    ∃ d, handle_suspense_wakeup exDomReady 0 = .ok d ∧
      (d.scopes 0).node = some (RenderReturn.Sync (some (.Text "hi"))) ∧
      d.boundaries 0 = exDomReady.boundaries 0 ++
        (createTemplate exDomReady.nextElementId (.Text "hi")).1 ∧
      (∀ j, j ≠ 0 → d.boundaries j = exDomReady.boundaries j) ∧
      d.nextElementId = (createTemplate exDomReady.nextElementId (.Text "hi")).2 :=
  ⟨rfl, rfl, c5_ready_resolution exDomReady 0 exLeafReady (.Text "hi") 0 rfl rfl rfl⟩

/-- C6 counterexample: with leaf 0's future Ready at every poll, the first
wakeup polls it through to Ready (poll count 1), yet the leaf is still in the
leaves slab, and a second wake delivery for the same SuspenseId polls the
computation again (poll count 2) — Ready is not a terminal one-shot
transition in this code. -/
theorem c6_counterexample :
    exLeafReady.behavior 0 = some (some (.Text "hi")) ∧
    okLeafPolls (handle_suspense_wakeup exDomReady 0) 0 = some (some 1) ∧
    okLeafPolls (stepSuspense (handle_suspense_wakeup exDomReady 0) 0) 0 =
      some (some 2) :=
  ⟨rfl, rfl, rfl⟩

/-- Unfolding equation shared by several proofs: waking a registered leaf
whose poll returns `Ready(Some(template))` under an available boundary `b`
returns the explicitly updated state. -/
theorem suspense_ready_eq (dom : VirtualDom) (sid : SuspenseId)
    (leaf : SuspenseLeaf) (tpl : Template) (b : Nat)
    (hl : dom.leaves sid = some leaf)
    (hr : leaf.behavior leaf.polls = some (some tpl))
    (hb : (dom.scopes leaf.scope_id).boundary = some b) :
    handle_suspense_wakeup dom sid =
      .ok { dom with
              leaves := fun j =>
                if j = sid then some { leaf with polls := leaf.polls + 1 }
                else dom.leaves j,
              scopes := fun s =>
                if s = leaf.scope_id then
                  { dom.scopes s with node := some (RenderReturn.Sync (some tpl)) }
                else dom.scopes s,
              boundaries := fun j =>
                if j = b then
                  dom.boundaries j ++ (createTemplate dom.nextElementId tpl).1
                else dom.boundaries j,
              nextElementId := (createTemplate dom.nextElementId tpl).2 } := by
  simp only [handle_suspense_wakeup, hl, hr, hb]

/-- C6 amended: `handle_suspense_wakeup` never deregisters a leaf.  After a
call whose poll returned Ready the SuspenseId stays registered in the leaves
slab (with its future advanced by one poll), and a subsequent wake delivery
that again finds Ready polls the computation a second time. -/
theorem c6_amended_ready_not_terminal (dom : VirtualDom) (sid : SuspenseId)
    (leaf : SuspenseLeaf) (tpl tpl2 : Template) (b : Nat)
    (hl : dom.leaves sid = some leaf)
    (hr : leaf.behavior leaf.polls = some (some tpl))
    (hr2 : leaf.behavior (leaf.polls + 1) = some (some tpl2))
    (hb : (dom.scopes leaf.scope_id).boundary = some b) :
    ∃ d1, handle_suspense_wakeup dom sid = .ok d1 ∧
      d1.leaves sid = some { leaf with polls := leaf.polls + 1 } ∧
      ∃ d2, handle_suspense_wakeup d1 sid = .ok d2 ∧
        leafPolls d2 sid = some (leaf.polls + 2) := by
  have h1 := suspense_ready_eq dom sid leaf tpl b hl hr hb
  refine ⟨_, h1, by simp,
    _, suspense_ready_eq _ sid { leaf with polls := leaf.polls + 1 } tpl2 b
      ?_ hr2 ?_, ?_⟩
  · simp
  · simpa using hb
  · simp [leafPolls]

/-- Witness for the amended C6 at the always-ready concrete leaf. -/
theorem c6_witness :
    ∃ d1, handle_suspense_wakeup exDomReady 0 = .ok d1 ∧
      d1.leaves 0 = some { exLeafReady with polls := 1 } ∧
      ∃ d2, handle_suspense_wakeup d1 0 = .ok d2 ∧
        leafPolls d2 0 = some 2 :=
  c6_amended_ready_not_terminal exDomReady 0 exLeafReady
    (.Text "hi") (.Text "hi") 0 rfl rfl rfl rfl

mutual
/-- Freshness of the creation pass: starting from fresh id `nid`, the pass
emits no replace_with instruction and references only ids at or above `nid`;
the returned next free id never goes below `nid`. -/
theorem createTemplate_fresh : ∀ (nid : Nat) (t : Template),
    nid ≤ (createTemplate nid t).2 ∧
    ∀ m ∈ (createTemplate nid t).1,
      m.isReplaceWith = false ∧ ∀ r ∈ mutationRefs m, nid ≤ r
  | nid, .Text s => by
      refine ⟨Nat.le_succ nid, ?_⟩
      intro m hm
      simp only [createTemplate, List.mem_singleton] at hm
      subst hm
      exact ⟨rfl, by simp [mutationRefs]⟩
  | nid, .Placeholder => by
      refine ⟨Nat.le_succ nid, ?_⟩
      intro m hm
      simp only [createTemplate, List.mem_singleton] at hm
      subst hm
      exact ⟨rfl, by simp [mutationRefs]⟩
  | nid, .Element tag attrs children => by
      have ih := createChildren_fresh (nid + 1) children
      constructor
      · exact le_trans (Nat.le_succ nid) ih.1
      · intro m hm
        simp only [createTemplate] at hm
        rw [List.mem_cons] at hm
        rcases hm with rfl | hm
        · exact ⟨rfl, by simp [mutationRefs]⟩
        rw [List.append_assoc, List.mem_append] at hm
        rcases hm with hm | hm
        · obtain ⟨a, ha, rfl⟩ := List.mem_map.mp hm
          exact ⟨rfl, by simp [mutationRefs]⟩
        rw [List.mem_append] at hm
        rcases hm with hm | hm
        · have h2 := ih.2 m hm
          exact ⟨h2.1, fun r hr => le_trans (Nat.le_succ nid) (h2.2 r hr)⟩
        · rw [List.mem_singleton] at hm
          subst hm
          exact ⟨rfl, by simp [mutationRefs]⟩

/-- Freshness of the creation pass over a children list. -/
theorem createChildren_fresh : ∀ (nid : Nat) (ts : TemplateList),
    nid ≤ (createChildren nid ts).2 ∧
    ∀ m ∈ (createChildren nid ts).1,
      m.isReplaceWith = false ∧ ∀ r ∈ mutationRefs m, nid ≤ r
  | nid, .nil => by
      refine ⟨Nat.le_refl nid, ?_⟩
      intro m hm
      simp [createChildren] at hm
  | nid, .cons t ts => by
      have ih1 := createTemplate_fresh nid t
      have ih2 := createChildren_fresh (createTemplate nid t).2 ts
      constructor
      · exact le_trans ih1.1 ih2.1
      · intro m hm
        simp only [createChildren] at hm
        rw [List.mem_append] at hm
        rcases hm with hm | hm
        · exact ih1.2 m hm
        · have h2 := ih2.2 m hm
          exact ⟨h2.1, fun r hr => le_trans ih1.1 (h2.2 r hr)⟩
end

/-- C1 counterexample: resolving the concrete ready leaf (reserved
placeholder id 0, buffer previously empty) appends exactly
`[CreateTextNode "hi" 1]` to the boundary buffer — the first appended
instruction is not a replace_with and does not reference the placeholder's
NodeId, refuting "the mutation sequence ... begins with a replace_with
instruction targeting that placeholder's NodeId". -/
theorem c1_counterexample :
    exLeafReady.placeholder = 0 ∧
    exDomReady.boundaries 0 = [] ∧
    okBoundary (handle_suspense_wakeup exDomReady 0) 0 =
      some [Mutation.CreateTextNode "hi" 1] ∧
    (Mutation.CreateTextNode "hi" 1).isReplaceWith = false ∧
    (mutationRefs (Mutation.CreateTextNode "hi" 1)).contains 0 = false :=
  ⟨rfl, rfl, rfl, rfl, rfl⟩

/-- C1 amended (the creation pass is modelled from the spec, see
`createTemplate`): delivering Ready for a registered SuspenseId appends the
creation mutations of the produced subtree to the boundary's buffer, after
everything already buffered; no appended instruction is a replace_with, and —
the placeholder having been allocated before the wakeup
(`placeholder < nextElementId`) — no appended instruction references the
placeholder's NodeId at all. -/
theorem c1_amended_no_replace_with (dom : VirtualDom) (sid : SuspenseId)
    (leaf : SuspenseLeaf) (tpl : Template) (b : Nat)
    (hl : dom.leaves sid = some leaf)
    (hr : leaf.behavior leaf.polls = some (some tpl))
    (hb : (dom.scopes leaf.scope_id).boundary = some b)
    (hfresh : leaf.placeholder < dom.nextElementId) :
    ∃ d, handle_suspense_wakeup dom sid = .ok d ∧
      d.boundaries b = dom.boundaries b ++ (createTemplate dom.nextElementId tpl).1 ∧
      ∀ m ∈ (createTemplate dom.nextElementId tpl).1,
        m.isReplaceWith = false ∧ leaf.placeholder ∉ mutationRefs m := by
  have h := suspense_ready_eq dom sid leaf tpl b hl hr hb
  refine ⟨_, h, by simp, ?_⟩
  intro m hm
  have hfr := (createTemplate_fresh dom.nextElementId tpl).2 m hm
  refine ⟨hfr.1, fun hmem => ?_⟩
  exact absurd (hfr.2 _ hmem) (Nat.not_le.mpr hfresh)

/-- Witness for the amended C1 at the concrete ready leaf. -/
theorem c1_witness :
    exDomReady.leaves 0 = some exLeafReady ∧
    exLeafReady.placeholder < exDomReady.nextElementId ∧
    (∃ d, handle_suspense_wakeup exDomReady 0 = .ok d ∧
      d.boundaries 0 = exDomReady.boundaries 0 ++
        (createTemplate exDomReady.nextElementId (.Text "hi")).1 ∧
      ∀ m ∈ (createTemplate exDomReady.nextElementId (.Text "hi")).1,
        m.isReplaceWith = false ∧ exLeafReady.placeholder ∉ mutationRefs m) :=
  ⟨rfl, by decide,
    c1_amended_no_replace_with exDomReady 0 exLeafReady (.Text "hi") 0
      rfl rfl rfl (by decide)⟩

/-- C9: the mutation-consumer interface (`Renderer`) consists of exactly the
twenty-one operations of the instruction set, in source order; every one is
required (no method has a default body, so a backend must implement all of
them); and `load` takes a `&'static str` label together with a `u32`. -/
theorem c9_renderer_contract :
    rendererMethods.map (fun m => m.name) =
      ["push_root", "pop_root", "replace_with", "insert_after", "insert_before",
       "append_children", "create_text_node", "create_element",
       "create_placeholder", "remove", "remove_attribute", "remove_children",
       "new_event_listener", "remove_event_listener", "set_text",
       "set_attribute", "mark_dirty_scope", "save", "load", "assign_id",
       "replace_descendant"] ∧
    rendererMethods.all (fun m => !m.hasDefault) = true ∧
    rendererMethods.filter (fun m => m.name == "load") =
      [⟨"load", [.staticStr, .u32], false⟩] :=
  ⟨rfl, rfl, by decide⟩
